import Mathlib

set_option maxRecDepth 100000

/-!
Verification development for the looped reasoning agent with a SQL
security checkpoint.

The Python source is embedded shallowly:

* `src/tools/sql_validator.py` → `validate_sql_query`, `count_joins`,
  `count_subqueries`, `BLOCKED_KEYWORDS`;
* `src/tools/sql_detector.py` → `contains_sql`, `contains_sql_patterns`,
  `extract_sql_queries`;
* `src/agent/guards.py` → `sql_validation_guard`;
* `src/agent/nodes.py` → `think_node`, `act_node`, `observe_node`,
  `respond_node`;
* `src/agent/graph.py` → `should_use_tool`, `should_continue_thinking`,
  `is_sql_safe`, and the compiled workflow as the step function `graphStep`;
* `src/tools/registry.py` → `ToolRegistry`, `execute_tool`;
* `src/config/settings.py` → `Settings`, `get_settings`.

The external `sqlparse` library (a third-party dependency, not part of the
repository) is modelled by `sqlparse_parse`: a lossless tokenizer with a
keyword lexicon, statement splitting on semicolons, and grouping of matched
parentheses — exactly the observable surface the validator relies on
(token types, token text, `get_type`, `flatten`, `Parenthesis` groups,
`str(token)`).  Python's `re` searches are modelled by dedicated scanning
functions implementing the concrete regular expressions of the detector.
-/

/-! ### Character classes and basic string utilities -/

/-- `\w` of Python `re` restricted to ASCII (all inputs of interest are ASCII). -/
def isWordChar (c : Char) : Bool :=
  (('a' ≤ c ∧ c ≤ 'z') ∨ ('A' ≤ c ∧ c ≤ 'Z') ∨ ('0' ≤ c ∧ c ≤ '9') ∨ c = '_')

/-- `\s` of Python `re` (also the whitespace set of `str.strip`). -/
def isSpaceChar (c : Char) : Bool :=
  (c = ' ' ∨ c = '\t' ∨ c = '\n' ∨ c = '\x0d' ∨ c = '\x0b' ∨ c = '\x0c')

/-- Uppercase a character list (`str.upper` on ASCII). -/
def upChars (cs : List Char) : List Char := cs.map Char.toUpper

/-- `str.upper`. -/
def upStr (s : String) : String := String.mk (upChars s.toList)

/-- `str.strip()`: drop whitespace from both ends. -/
def trimChars (cs : List Char) : List Char :=
  ((cs.dropWhile isSpaceChar).reverse.dropWhile isSpaceChar).reverse

/-- Substring test (Python's `needle in hay`). -/
def hasSub (needle : List Char) : List Char → Bool
  | [] => needle.isEmpty
  | c :: rest => needle.isPrefixOf (c :: rest) || hasSub needle rest

/-- Case-insensitive prefix test: does `cs` start with the (uppercase) literal `lit`? -/
def upPrefixOf (lit : List Char) (cs : List Char) : Bool :=
  lit.isPrefixOf (upChars (cs.take lit.length))

/-! ### The token model (surface of the external `sqlparse` library)

`sqlparse` statements are trees of tokens; the only grouping that the
validator's behaviour depends on is the `Parenthesis` group, so a parsed
statement is modelled as a token sequence whose elements are leaves or
parenthesis groups.  `Toks` is that sequence, written as its own cons-like
inductive so every function over it is structural and kernel-evaluable. -/

/-- Token types: `Keyword.DML`, `Keyword.DDL`, plain `Keyword`, `Name`,
`Whitespace` and `Punctuation` of `sqlparse.tokens`.  (`token.ttype is
Keyword` in the source is an identity test, true only for plain `Keyword`.) -/
inductive TType where
  | DML | DDL | Keyword | Name | Whitespace | Punctuation
deriving DecidableEq, Repr

/-- A token sequence: empty, a leaf token followed by the rest, or a
`Parenthesis` group (its inner sequence, excluding the surrounding paren
characters, which `strToks` and `flattenToks` reinstate) followed by the rest. -/
inductive Toks where
  | nil
  | leaf (ttype : TType) (text : String) (rest : Toks)
  | paren (inner : Toks) (rest : Toks)
deriving DecidableEq, Repr

/-- `str(...)` over a token sequence: the exact source text. -/
def strToks : Toks → String
  | .nil => ""
  | .leaf _ v rest => v ++ strToks rest
  | .paren inner rest => "(" ++ strToks inner ++ ")" ++ strToks rest

/-- `statement.flatten()`: the leaf tokens in order, as (ttype, text) pairs;
the parentheses of a group reappear as `Punctuation` leaves. -/
def flattenToks : Toks → List (TType × String)
  | .nil => []
  | .leaf tt v rest => (tt, v) :: flattenToks rest
  | .paren inner rest =>
      (TType.Punctuation, "(") :: (flattenToks inner ++ ((TType.Punctuation, ")") :: flattenToks rest))

/-! ### The modelled parser `sqlparse_parse` -/

/-- DML keywords of the `sqlparse` lexicon (relevant vocabulary). -/
def DML_WORDS : List String :=
  ["SELECT", "INSERT", "UPDATE", "DELETE", "MERGE", "UPSERT", "REPLACE"]

/-- DDL keywords of the `sqlparse` lexicon (relevant vocabulary). -/
def DDL_WORDS : List String :=
  ["CREATE", "ALTER", "DROP", "TRUNCATE"]

/-- Plain keywords of the `sqlparse` lexicon (relevant vocabulary). -/
def KEYWORD_WORDS : List String :=
  ["FROM", "WHERE", "JOIN", "ON", "IN", "AND", "OR", "SET", "INTO", "TABLE",
   "GRANT", "REVOKE", "EXEC", "EXECUTE", "LEFT", "RIGHT", "INNER", "OUTER",
   "CROSS", "FULL", "AS", "NOT", "NULL", "BY", "GROUP", "ORDER", "VALUES",
   "ADD", "COLUMN", "UNION", "ALL", "DISTINCT", "LIMIT", "HAVING"]

/-- Classify a word token the way the `sqlparse` lexer does. -/
def classifyWord (w : String) : TType :=
  let u := upStr w
  if DML_WORDS.contains u then TType.DML
  else if DDL_WORDS.contains u then TType.DDL
  else if KEYWORD_WORDS.contains u then TType.Keyword
  else TType.Name

/-- A raw (ungrouped) token. -/
abbrev RawTok := TType × String

/-- Lossless tokenizer: whitespace runs, word runs, single punctuation
characters.  `fuel` bounds the recursion; every step consumes at least one
character, so `cs.length + 1` always suffices. -/
def tokenizeAux : Nat → List Char → List RawTok
  | 0, _ => []
  | _ + 1, [] => []
  | fuel + 1, c :: rest =>
      if isSpaceChar c then
        (TType.Whitespace, String.mk (c :: rest.takeWhile isSpaceChar)) ::
          tokenizeAux fuel (rest.dropWhile isSpaceChar)
      else if isWordChar c then
        let w := String.mk (c :: rest.takeWhile isWordChar)
        (classifyWord w, w) :: tokenizeAux fuel (rest.dropWhile isWordChar)
      else
        (TType.Punctuation, String.mk [c]) :: tokenizeAux fuel rest

def tokenize (cs : List Char) : List RawTok := tokenizeAux (cs.length + 1) cs

/-- Statement splitting on semicolons (the `sqlparse` statement splitter):
each `;` ends a statement and belongs to it; trailing tokens form a final
statement; the empty input yields no statements. -/
def splitStatementsAux : List RawTok → List RawTok → List (List RawTok)
  | [], acc => if acc.isEmpty then [] else [acc.reverse]
  | r :: rest, acc =>
      if r.1 = TType.Punctuation ∧ r.2 = ";" then
        (acc.reverse ++ [r]) :: splitStatementsAux rest []
      else splitStatementsAux rest (r :: acc)

def splitStatements (rs : List RawTok) : List (List RawTok) := splitStatementsAux rs []

/-- Intermediate grouped token used while matching parentheses. -/
inductive PTok where
  | pleaf (ttype : TType) (text : String)
  | pgrp (inner : Toks)
deriving DecidableEq, Repr

/-- Convert a (forward-ordered) list of grouped tokens to a `Toks` sequence. -/
def toToks : List PTok → Toks
  | [] => .nil
  | .pleaf tt v :: r => .leaf tt v (toToks r)
  | .pgrp i :: r => .paren i (toToks r)

/-- Restore unmatched open parentheses (they stay ungrouped, as in
`sqlparse`'s `_group_matching`).  `cur` and the stack entries are in
reversed (most-recent-first) order. -/
def unwindParens : List PTok → List (List PTok) → List PTok
  | cur, [] => cur
  | cur, parent :: ps =>
      unwindParens (cur ++ (PTok.pleaf TType.Punctuation "(" :: parent)) ps

/-- Group matched parentheses with a stack; an unmatched `)` stays an
ordinary token, an unmatched `(` is restored by `unwindParens`. -/
def groupRun : List RawTok → List PTok → List (List PTok) → List PTok
  | [], cur, stack => unwindParens cur stack
  | (tt, s) :: rest, cur, stack =>
      if tt = TType.Punctuation ∧ s = "(" then
        groupRun rest [] (cur :: stack)
      else if tt = TType.Punctuation ∧ s = ")" then
        match stack with
        | [] => groupRun rest (PTok.pleaf TType.Punctuation ")" :: cur) []
        | parent :: ps => groupRun rest (PTok.pgrp (toToks cur.reverse) :: parent) ps
      else groupRun rest (PTok.pleaf tt s :: cur) stack

/-- Build one parsed statement from its raw tokens. -/
def buildStatement (rs : List RawTok) : Toks := toToks (groupRun rs [] []).reverse

/-- Model of `sqlparse.parse`: the list of parsed statements of a query
string.  (`sqlparse.parse("") == ()`; a whitespace-only input yields one
whitespace statement.) -/
def sqlparse_parse (query : String) : List Toks :=
  (splitStatements (tokenize query.toList)).map buildStatement

/-- Model of `Statement.get_type`: the normalized (uppercased) value of the
first non-whitespace token when it is a DML or DDL keyword, else
`"UNKNOWN"`.  (The `CREATE OR REPLACE` and CTE look-aheads of `sqlparse`
are not exercised by this code base and are omitted.) -/
def get_type : Toks → String
  | .nil => "UNKNOWN"
  | .leaf tt v rest =>
      if tt = TType.Whitespace then get_type rest
      else if tt = TType.DML ∨ tt = TType.DDL then upStr v
      else "UNKNOWN"
  | .paren _ _ => "UNKNOWN"

/-! ### The validator (`src/tools/sql_validator.py`) -/

/-- Blocked SQL keywords (destructive operations). -/
def BLOCKED_KEYWORDS : List String :=
  ["INSERT", "UPDATE", "DELETE", "DROP",
   "ALTER", "CREATE", "TRUNCATE", "REPLACE",
   "MERGE", "UPSERT", "GRANT", "REVOKE",
   "EXEC", "EXECUTE"]

/-- Metadata values (`result.metadata` is a str → value dict). -/
inductive MetaVal where
  | nat (n : Nat)
  | str (s : String)
deriving DecidableEq, Repr

/-- `SQLValidationResult` of `sql_validator.py`; metadata is an
insertion-ordered association list. -/
structure SQLValidationResult where
  valid : Bool
  errors : List String
  warnings : List String
  metadata : List (String × MetaVal)
deriving DecidableEq, Repr

/-- Application settings with their default values (`Settings` in
`src/config/settings.py`; environment overrides are an external concern). -/
structure Settings where
  max_iterations : Nat
  max_history_messages : Nat
  sql_max_joins : Nat
  sql_max_subqueries : Nat
deriving DecidableEq, Repr

def get_settings : Settings :=
  { max_iterations := 3
  , max_history_messages := 50
  , sql_max_joins := 3
  , sql_max_subqueries := 5 }

/-- `count_joins`: count leaf `Keyword` tokens whose uppercased text has
`JOIN` as a substring, descending into every group. -/
def count_joins : Toks → Nat
  | .nil => 0
  | .leaf tt v rest =>
      (if tt = TType.Keyword ∧ hasSub ("JOIN".toList) (upChars v.toList) then 1 else 0)
        + count_joins rest
  | .paren inner rest => count_joins inner + count_joins rest

/-- `str.strip("()")`: drop parenthesis characters from both ends. -/
def stripParenChars (s : String) : String :=
  String.mk (((s.toList.dropWhile (fun c => c = '(' ∨ c = ')')).reverse.dropWhile
    (fun c => c = '(' ∨ c = ')')).reverse)

/-- `count_subqueries`: for each `Parenthesis` group, take `str(token)`
stripped of outer paren characters, re-parse it, and when the first
re-parsed statement is `SELECT`-classified count one and recurse into that
re-parsed statement; other tokens contribute nothing (there are no further
group kinds in the model, so the `elif hasattr(token, "tokens")` branch has
no inhabitant).  `fuel` decreases on every call so the recursion is
structural; each re-parse strictly shortens the text, so the recursion
depth is below `(n + 2)^2` for an input of length `n` and the fuel passed
by `validate_sql_query` is never exhausted. -/
def count_subqueries : Nat → Toks → Nat
  | 0, _ => 0
  | _ + 1, .nil => 0
  | fuel + 1, .leaf _ _ rest => count_subqueries fuel rest
  | fuel + 1, .paren inner rest =>
      (let inner_sql := stripParenChars ("(" ++ strToks inner ++ ")")
       match sqlparse_parse inner_sql with
       | [] => 0
       | s :: _ => if get_type s = "SELECT" then 1 + count_subqueries fuel s else 0)
        + count_subqueries fuel rest

/-- Fuel passed to `count_subqueries` by the validator; strictly larger
than any possible recursion depth for an input of this length. -/
def subquery_fuel (query : String) : Nat :=
  (query.toList.length + 2) * (query.toList.length + 2)

/-- Model of `sqlparse.format(query, reindent=True, keyword_case="upper")`.
No claim constrains the rendered text — only the presence of the
`formatted_query` metadata entry — so the external pretty-printer is
modelled as the identity rendering. -/
def sqlparse_format (query : String) : String := query

/-- Layer 3 of `validate_sql_query`: one error per flattened token whose
ttype is plain `Keyword` and whose uppercased text is blocked. -/
def blocked_errors (statement : Toks) : List String :=
  (flattenToks statement).filterMap fun t =>
    if t.1 = TType.Keyword ∧ BLOCKED_KEYWORDS.contains (upStr t.2) then
      some ("Blocked keyword found: " ++ upStr t.2)
    else none

/-- Layer 4 error list: JOIN count over the limit. -/
def join_errors (statement : Toks) : List String :=
  if count_joins statement > get_settings.sql_max_joins then
    ["Too many JOINs: " ++ toString (count_joins statement) ++
      " (max: " ++ toString get_settings.sql_max_joins ++ ")"]
  else []

/-- Layer 5 error list: subquery count over the limit. -/
def subquery_errors (query : String) (statement : Toks) : List String :=
  if count_subqueries (subquery_fuel query) statement > get_settings.sql_max_subqueries then
    ["Too many subqueries: " ++ toString (count_subqueries (subquery_fuel query) statement) ++
      " (max: " ++ toString get_settings.sql_max_subqueries ++ ")"]
  else []

/-- `validate_sql_query`: parse; reject non-`SELECT` statement types;
then accumulate blocklist, JOIN-limit and subquery-limit errors (no early
return) and attach `join_count`, `subquery_count` and `formatted_query`
metadata.  Only the first parsed statement is examined.  The Python
`try/except` around parsing is vacuous here: the modelled parser is total,
so validation never raises. -/
def validate_sql_query (query : String) : SQLValidationResult :=
  match sqlparse_parse query with
  | [] =>
      { valid := false
      , errors := ["Empty or invalid SQL query"]
      , warnings := []
      , metadata := [] }
  | statement :: _ =>
      let stmt_type := get_type statement
      if stmt_type ≠ "SELECT" then
        { valid := false
        , errors := ["Only SELECT statements allowed, got: " ++ stmt_type]
        , warnings := []
        , metadata := [] }
      else
        let bErrs := blocked_errors statement
        let jErrs := join_errors statement
        let sErrs := subquery_errors query statement
        { valid := bErrs.isEmpty && jErrs.isEmpty && sErrs.isEmpty
        , errors := bErrs ++ jErrs ++ sErrs
        , warnings := []
        , metadata :=
            [("join_count", MetaVal.nat (count_joins statement)),
             ("subquery_count", MetaVal.nat (count_subqueries (subquery_fuel query) statement)),
             ("formatted_query", MetaVal.str (sqlparse_format query))] }

example : (validate_sql_query "SELECT id, name FROM users WHERE age > 18").valid = true := by decide
example : (validate_sql_query "DELETE FROM users WHERE id = 1").errors
    = ["Only SELECT statements allowed, got: DELETE"] := by decide
example : (validate_sql_query "").valid = false := by decide

/-! ### The detector (`src/tools/sql_detector.py`)

The concrete regular expressions of the detector are modelled by dedicated
scanning functions.  `re.search` existence and `re.finditer` enumeration
are implemented by left-to-right position scans; the lazy/greedy structure
of each pattern is deterministic (analysed per pattern in the comments), so
the scans compute exactly the Python match semantics. -/

/-- SQL keywords that indicate a query.  The Python source iterates this
collection as a `set` (unspecified order); detection results are
order-independent, and for extraction the literal's order is fixed. -/
def SQL_KEYWORDS : List String :=
  ["SELECT", "INSERT", "UPDATE", "DELETE", "CREATE", "DROP",
   "ALTER", "TRUNCATE", "MERGE", "UPSERT", "REPLACE"]

/-- First occurrence of a triple-backtick fence: text before it and text
after it. -/
def findTicks : List Char → Option (List Char × List Char)
  | [] => none
  | c :: rest =>
      if ("```".toList).isPrefixOf (c :: rest) then some ([], rest.drop 2)
      else
        match findTicks rest with
        | none => none
        | some (pre, post) => some (c :: pre, post)

/-- First match of the fenced-block pattern (three backticks, an optional
case-insensitive `sql` tag, a lazy body, three closing backticks, with
`DOTALL`): the text before the match, the raw inner text, and the text
after the match.  If the first open fence has no closing fence then no
later start position can produce one either (a close for a shifted start
would be a close for this one), so the whole search fails. -/
def splitFence (cs : List Char) : Option (List Char × List Char × List Char) :=
  match findTicks cs with
  | none => none
  | some (pre, afterOpen) =>
      let body := if upPrefixOf ("SQL".toList) afterOpen then afterOpen.drop 3 else afterOpen
      match findTicks body with
      | none => none
      | some (inner, post) => some (pre, inner, post)

/-- All fenced-block matches (`re.finditer`), as (text-before, inner-text)
segments plus the remainder after the last match.  Every match consumes at
least the six fence characters, so `cs.length + 1` fuel always suffices. -/
def fenceSplits : Nat → List Char → List (List Char × List Char) × List Char
  | 0, cs => ([], cs)
  | fuel + 1, cs =>
      match splitFence cs with
      | none => ([], cs)
      | some (pre, inner, post) =>
          let (rest, rem) := fenceSplits fuel post
          ((pre, inner) :: rest, rem)

/-- The inner texts of all fenced blocks, in order. -/
def allFenceInners (cs : List Char) : List (List Char) :=
  ((fenceSplits (cs.length + 1) cs).1).map (fun pr => pr.2)

/-- `re.sub` deleting every fenced block. -/
def removeFences (cs : List Char) : List Char :=
  let (segs, rem) := fenceSplits (cs.length + 1) cs
  (segs.map (fun pr => pr.1)).foldr (fun s acc => s ++ acc) rem

/-- `contains_sql_patterns`: any detection keyword occurs as a substring of
the uppercased text. -/
def contains_sql_patterns (text : String) : Bool :=
  SQL_KEYWORDS.any (fun kw => hasSub kw.toList (upChars text.toList))

/-- `\b` after a word character: the next character is absent or non-word. -/
def boundaryAfter : List Char → Bool
  | [] => true
  | c :: _ => !(isWordChar c)

/-- A literal word followed by `\b` (on already-uppercased text). -/
def litWordAt (w : List Char) (cs : List Char) : Bool :=
  w.isPrefixOf cs && boundaryAfter (cs.drop w.length)

/-- `\s+` then a continuation.  Every continuation used below starts with a
non-whitespace requirement, so consuming the maximal whitespace run is
exact. -/
def spacedTail (tail : List Char → Bool) (cs : List Char) : Bool :=
  match cs with
  | [] => false
  | c :: _ => isSpaceChar c && tail (cs.dropWhile isSpaceChar)

/-- `\s+FROM\b`. -/
def spaceFromTail (cs : List Char) : Bool :=
  spacedTail (litWordAt ("FROM".toList)) cs

/-- After a maximal `\w+` run: `(?:\s*,\s*\w+)*\s+FROM\b`.  At each
round the iteration branch needs a comma where the exit branch needs
whitespace then `F`, so the choice is deterministic.  Each iteration
consumes the comma, so `cs.length + 1` fuel always suffices. -/
def wordListTail : Nat → List Char → Bool
  | 0, _ => false
  | fuel + 1, cs =>
      let sp := cs.takeWhile isSpaceChar
      let r := cs.dropWhile isSpaceChar
      match r with
      | ',' :: r2 =>
          let r3 := r2.dropWhile isSpaceChar
          if (r3.takeWhile isWordChar).isEmpty then false
          else wordListTail fuel (r3.dropWhile isWordChar)
      | _ => !sp.isEmpty && litWordAt ("FROM".toList) r

/-- Tail of pattern 1: `(?:\*|\w+(?:\s*,\s*\w+)*)\s+FROM\b` (a `*` or a
comma-separated column list, then `FROM`). -/
def p1Tail (cs : List Char) : Bool :=
  match cs with
  | '*' :: r => spaceFromTail r
  | _ =>
      !(cs.takeWhile isWordChar).isEmpty &&
        wordListTail (cs.length + 1) (cs.dropWhile isWordChar)

/-- Tail of pattern 4: `\w+\s+SET\b`. -/
def p4Tail (cs : List Char) : Bool :=
  !(cs.takeWhile isWordChar).isEmpty &&
    spacedTail (litWordAt ("SET".toList)) (cs.dropWhile isWordChar)

/-- Tail of pattern 5: `FROM\s+\w+`. -/
def p5Tail (cs : List Char) : Bool :=
  ("FROM".toList).isPrefixOf cs &&
    (match cs.drop 4 with
     | [] => false
     | c :: _ => isSpaceChar c &&
         !(((cs.drop 4).dropWhile isSpaceChar).takeWhile isWordChar).isEmpty)

/-- `re.search` for `\bKW` followed by a tail, scanning positions left to
right; `prevWord` tracks whether the previous character was a word
character (for the leading `\b`). -/
def kwScan (kw : List Char) (tail : List Char → Bool) : Bool → List Char → Bool
  | _, [] => false
  | prevWord, c :: rest =>
      (!prevWord && kw.isPrefixOf (c :: rest) && tail ((c :: rest).drop kw.length))
        || kwScan kw tail (isWordChar c) rest

/-- The five inline patterns of `contains_sql` for one keyword, over the
uppercased block-free text.  (`\bKW\b\s+` is `kwScan` plus `spacedTail`:
the trailing `\b` of the keyword is subsumed by the mandatory whitespace.) -/
def inline_sql_hit (kw : String) (up : List Char) : Bool :=
  kwScan kw.toList (spacedTail p1Tail) false up
    || kwScan kw.toList (spacedTail (litWordAt ("INTO".toList))) false up
    || kwScan kw.toList (spacedTail (litWordAt ("TABLE".toList))) false up
    || kwScan kw.toList (spacedTail p4Tail) false up
    || kwScan kw.toList (spacedTail p5Tail) false up

/-- `contains_sql`: if the text has a fenced block, test the first block's
inner text for keyword substrings; otherwise (or if that fails) strip all
fenced blocks, uppercase, and search the five keyword patterns. -/
def contains_sql (text : String) : Bool :=
  let cs := text.toList
  let fencedHit :=
    match splitFence cs with
    | some (_, innerRaw, _) =>
        contains_sql_patterns (String.mk (innerRaw.dropWhile isSpaceChar))
    | none => false
  fencedHit ||
    (let up := upChars (removeFences cs)
     SQL_KEYWORDS.any (fun kw => inline_sql_hit kw up))

/-- The lazy span `[^.;]*?(?:;|\.|\n|$)` after a keyword: the shortest run
up to and including the first `;`, `.` or newline, or up to the end of the
text.  Returns the span and the remainder after it. -/
def exSpan : List Char → List Char × List Char
  | [] => ([], [])
  | c :: rest =>
      if c = ';' ∨ c = '.' ∨ c = '\n' then ([c], rest)
      else
        let (sp, rem) := exSpan rest
        (c :: sp, rem)

/-- `re.finditer` for `\b(KW\b[^.;]*?(?:;|\.|\n|$))` with `IGNORECASE`:
the matched spans in original case, scanning left to right and resuming
after each match (the terminator is never a word character, so the
boundary state after a match is "non-word").  Each step consumes at least
one character, so `cs.length + 1` fuel always suffices. -/
def inline_matches (kw : List Char) : Nat → Bool → List Char → List String
  | 0, _, _ => []
  | fuel + 1, prevWord, cs =>
      match cs with
      | [] => []
      | c :: rest =>
          if !prevWord ∧ upPrefixOf kw cs ∧ boundaryAfter (cs.drop kw.length) then
            let (sp, rem) := exSpan (cs.drop kw.length)
            String.mk (cs.take kw.length ++ sp) :: inline_matches kw fuel false rem
          else inline_matches kw fuel (isWordChar c) rest

/-- Confirmation words of the extraction heuristic. -/
def CONFIRM_WORDS : List String :=
  ["FROM", "INTO", "TABLE", "SET", "WHERE", "JOIN"]

/-- `re.search` for `\b(FROM|INTO|TABLE|SET|WHERE|JOIN)\b`, `IGNORECASE`. -/
def confirmScan : Bool → List Char → Bool
  | _, [] => false
  | prevWord, c :: rest =>
      (!prevWord &&
        CONFIRM_WORDS.any (fun w =>
          upPrefixOf w.toList (c :: rest) ∧ boundaryAfter ((c :: rest).drop w.length)))
        || confirmScan (isWordChar c) rest

/-- "Verify it looks like SQL": the confirmation-keyword search. -/
def looks_like_sql (q : String) : Bool := confirmScan false q.toList

/-- `re.sub(r"[.!?]+$", "", q)`: drop the trailing run of sentence
punctuation. -/
def dropTrailingSentencePunct (q : String) : String :=
  String.mk ((q.toList.reverse.dropWhile (fun c => c = '.' ∨ c = '!' ∨ c = '?')).reverse)

/-- Code-block phase of `extract_sql_queries`: every fenced block whose
stripped content is non-empty and contains a keyword substring is appended
verbatim — with no duplicate check. -/
def code_block_queries (text : String) : List String :=
  (allFenceInners text.toList).foldl
    (fun acc innerRaw =>
      let content := String.mk (trimChars innerRaw)
      if content ≠ "" ∧ contains_sql_patterns content then acc ++ [content] else acc)
    []

/-- Inline phase of `extract_sql_queries`: for each keyword, each match is
stripped; if the confirmation search succeeds, trailing sentence
punctuation is removed and the result is appended unless already present. -/
def inline_extend (text : String) (qs : List String) : List String :=
  SQL_KEYWORDS.foldl
    (fun acc kw =>
      (inline_matches kw.toList (text.toList.length + 1) false text.toList).foldl
        (fun acc2 cap =>
          let q := String.mk (trimChars cap.toList)
          if looks_like_sql q then
            let q2 := dropTrailingSentencePunct q
            if acc2.contains q2 then acc2 else acc2 ++ [q2]
          else acc2)
        acc)
    qs

/-- `extract_sql_queries`: code-block extraction first, then inline
extraction over the original text. -/
def extract_sql_queries (text : String) : List String :=
  inline_extend text (code_block_queries text)

/-! ### Messages, agent state and the guard (`src/agent/state.py`,
`src/agent/guards.py`) -/

/-- Message roles of the LangChain message classes: `SystemMessage`,
`HumanMessage`, `AIMessage`, `ToolMessage`. -/
inductive Role where
  | system | user | assistant | tool
deriving DecidableEq, Repr

/-- A tool invocation request produced by the backend:
`{"name": ..., "args": ..., "id": ...}`. -/
structure ToolCall where
  name : String
  args : List (String × String)
  id : String
deriving DecidableEq, Repr

/-- A conversation message.  `content` is optional to model the dynamic
`hasattr(message, "content")` probe of the guard (an object without
textual content); LangChain messages other than `AIMessage` always carry
an empty `tool_calls` list. -/
structure Message where
  role : Role
  content : Option String
  tool_calls : List ToolCall
  tool_call_id : Option String
deriving DecidableEq, Repr

/-- `SystemMessage(content=SYSTEM_PROMPT)` of `src/agent/nodes.py` (the
preamble text itself is irrelevant to every claim; a short stand-in keeps
witness evaluation cheap). -/
def system_message : Message :=
  { role := Role.system
  , content := some "You are a helpful AI assistant with access to SQL validation tools."
  , tool_calls := []
  , tool_call_id := none }

/-- `AgentState` of `src/agent/state.py`.  `sql_safe`, `sql_violations`
and `guard_checked` carry the defaults used by `state.get(...)` when the
chat front-end leaves them unset. -/
structure AgentState where
  messages : List Message
  user_input : String
  tool_output : Option String
  iteration_count : Nat
  should_continue : Bool
  sql_safe : Bool
  sql_violations : List (String × List String × List (String × MetaVal))
  guard_checked : Bool
deriving DecidableEq, Repr

/-- One violation record of the guard:
`{"query": ..., "errors": ..., "metadata": ...}`. -/
abbrev Violation := String × List String × List (String × MetaVal)

/-- The state updates returned by `sql_validation_guard`. -/
structure GuardUpdate where
  sql_safe : Bool
  sql_violations : List Violation
  guard_checked : Bool
deriving DecidableEq, Repr

/-- The guard's body once the last message is in hand. -/
def guard_message (last_message : Message) : GuardUpdate :=
  match last_message.content with
  | none => { sql_safe := true, sql_violations := [], guard_checked := true }
  | some content =>
      if !contains_sql content then
        { sql_safe := true, sql_violations := [], guard_checked := true }
      else
        let queries := extract_sql_queries content
        let violations := queries.filterMap fun query =>
          let result := validate_sql_query query
          if !result.valid then some ((query, result.errors, result.metadata) : Violation)
          else none
        { sql_safe := violations.isEmpty
        , sql_violations := violations
        , guard_checked := true }

/-- `sql_validation_guard` of `src/agent/guards.py`: empty message list,
content-less last message, or no detected SQL each yield the safe default;
otherwise every extracted query is validated and each invalid one
contributes one violation; the verdict is safe iff none was collected.
`guard_checked` is true on every path. -/
def sql_validation_guard (state : AgentState) : GuardUpdate :=
  match state.messages.getLast? with
  | none => { sql_safe := true, sql_violations := [], guard_checked := true }
  | some last_message => guard_message last_message

/-! ### The tool registry (`src/tools/registry.py`) -/

/-- A registered tool: its `invoke` either returns a string or fails with
an error message (a Python exception). -/
abbrev ToolImpl := List (String × String) → Except String String

/-- `ToolRegistry`: a name → tool mapping (`register` overwrites, so the
association list is keyed by first occurrence). -/
structure ToolRegistry where
  tools : List (String × ToolImpl)

/-- `execute_tool`: `raise ValueError(f"Unknown tool: {tool_name}")` becomes
an `Except.error`; otherwise the tool is invoked (its result is already a
string, so `str(result)` is the identity). -/
def execute_tool (registry : ToolRegistry) (tool_name : String)
    (tool_input : List (String × String)) : Except String String :=
  match registry.tools.lookup tool_name with
  | none => Except.error ("Unknown tool: " ++ tool_name)
  | some t => t tool_input

/-! ### The workflow nodes (`src/agent/nodes.py`) -/

/-- The message sequence handed to the backend by `think_node`: the system
preamble is prepended when the transcript is non-empty and does not already
start with a `SystemMessage`.  (This is the local `messages` variable of
`think_node`; it is not stored back into the state.) -/
def think_handed (state : AgentState) : List Message :=
  match state.messages with
  | [] => []
  | m :: rest =>
      if m.role ≠ Role.system then system_message :: m :: rest else m :: rest

/-- `think_node`: invoke the backend on `think_handed`, append exactly the
produced message to the transcript (the `add` reducer of `messages`), and
increment `iteration_count`. -/
def think_node (backend : List Message → Message) (state : AgentState) : AgentState :=
  let response := backend (think_handed state)
  { state with
      messages := state.messages ++ [response]
    , iteration_count := state.iteration_count + 1 }

/-- The state updates returned by `act_node`. -/
structure ActUpdate where
  messages : List Message
  tool_output : String
deriving Repr

/-- The Tool message built by `act_node`. -/
def tool_message (content : String) (tool_call_id : String) : Message :=
  { role := Role.tool
  , content := some content
  , tool_calls := []
  , tool_call_id := some tool_call_id }

/-- The content of the Tool message `act_node` appends, as a function of
the dispatched (first) tool call only. -/
def act_content (registry : ToolRegistry) (tool_call : ToolCall) : String :=
  match execute_tool registry tool_call.name tool_call.args with
  | Except.ok r => r
  | Except.error e => "Error: " ++ e

/-- `act_node`: dispatch the first tool call of the last message through
the registry inside `try/except` and append exactly one Tool message with
the result or the `Error:`-prefixed exception text.  `none` models the
`IndexError` the Python code would raise outside its `try` when the last
message is missing or carries no tool calls — states from which the graph
never enters ACT. -/
def act_node (registry : ToolRegistry) (state : AgentState) : Option ActUpdate :=
  match state.messages.getLast? with
  | none => none
  | some last_message =>
      match last_message.tool_calls with
      | [] => none
      | tool_call :: _ =>
          let content := act_content registry tool_call
          some { messages := [tool_message content tool_call.id]
               , tool_output := content }

/-- `observe_node`: continue iff the last tool output starts with
`Error:`.  (With `tool_output = None` the Python expression
`state.get("tool_output", "").startswith` would raise; OBSERVE is only
reached after ACT has set it.) -/
def observe_node (state : AgentState) : Bool :=
  match state.tool_output with
  | some t => t.startsWith "Error:"
  | none => false

/-! ### The graph (`src/agent/graph.py`) -/

/-- `should_use_tool`: `"use_tool"` iff the last message carries a
non-empty `tool_calls` list.  (On an empty transcript the Python
`messages[-1]` would raise; the graph never evaluates this edge there.) -/
def should_use_tool (state : AgentState) : String :=
  match state.messages.getLast? with
  | some last_message => if !last_message.tool_calls.isEmpty then "use_tool" else "respond"
  | none => "respond"

/-- `should_continue_thinking`: `"finish"` once `iteration_count` reaches
`max_iterations`, else `"continue"` iff `should_continue` is set. -/
def should_continue_thinking (state : AgentState) : String :=
  if state.iteration_count ≥ get_settings.max_iterations then "finish"
  else if state.should_continue then "continue"
  else "finish"

/-- `is_sql_safe`: `"safe"` when the guard has not run; otherwise `"safe"`
iff `sql_safe`. -/
def is_sql_safe (state : AgentState) : String :=
  if !state.guard_checked then "safe"
  else if state.sql_safe then "safe" else "unsafe"

/-- Graph nodes (`done` is LangGraph's `END`). -/
inductive Node where
  | think | act | observe | respond | sql_guard | done
deriving DecidableEq, Repr

/-- The conditional edge out of `think`: `{"use_tool": "act", "respond": "respond"}`. -/
def think_route (state : AgentState) : Node :=
  if should_use_tool state = "use_tool" then Node.act else Node.respond

/-- The conditional edge out of `observe`: `{"continue": "think", "finish": "respond"}`. -/
def observe_route (state : AgentState) : Node :=
  if should_continue_thinking state = "continue" then Node.think else Node.respond

/-- The conditional edge out of `sql_guard`: `{"safe": END, "unsafe": "think"}`. -/
def guard_route (state : AgentState) : Node :=
  if is_sql_safe state = "safe" then Node.done else Node.think

/-- One step of the compiled workflow: run the current node's function,
merge its updates into the state (`messages` via the `add` reducer, other
fields by replacement), then follow the node's (conditional) edge on the
merged state.  `respond_node` returns no updates. -/
def graphStep (backend : List Message → Message) (registry : ToolRegistry) :
    Node × AgentState → Node × AgentState
  | (Node.think, s) =>
      let s1 := think_node backend s
      (think_route s1, s1)
  | (Node.act, s) =>
      let s1 := match act_node registry s with
        | some u => { s with messages := s.messages ++ u.messages
                           , tool_output := some u.tool_output }
        | none => s
      (Node.observe, s1)
  | (Node.observe, s) =>
      let s1 := { s with should_continue := observe_node s }
      (observe_route s1, s1)
  | (Node.respond, s) => (Node.sql_guard, s)
  | (Node.sql_guard, s) =>
      let u := sql_validation_guard s
      let s1 := { s with sql_safe := u.sql_safe
                       , sql_violations := u.sql_violations
                       , guard_checked := u.guard_checked }
      (guard_route s1, s1)
  | (Node.done, s) => (Node.done, s)

/-- Iterate `graphStep`. -/
def stepN (backend : List Message → Message) (registry : ToolRegistry) :
    Nat → Node × AgentState → Node × AgentState
  | 0, p => p
  | n + 1, p => stepN backend registry n (graphStep backend registry p)

/-- The destructive reply a misbehaving backend keeps producing. -/
def drop_message : Message :=
  { role := Role.assistant
  , content := some "DROP TABLE users;"
  , tool_calls := []
  , tool_call_id := none }

/-- A backend that persistently re-emits a destructive SQL reply. -/
def bad_backend : List Message → Message := fun _ => drop_message

/-- The violation the guard records for `drop_message`. -/
def drop_violation : Violation :=
  ("DROP TABLE users;", ["Only SELECT statements allowed, got: DROP"], [])

/-- An empty tool registry (the loop under scrutiny never dispatches). -/
def empty_registry : ToolRegistry := { tools := [] }

/-- The initial state built by the chat front-end for a user turn
(`src/cli/chat.py`), with the guard fields at their `state.get` defaults. -/
def initial_state (user_input : String) : AgentState :=
  { messages := [{ role := Role.user, content := some user_input
                 , tool_calls := [], tool_call_id := none }]
  , user_input := user_input
  , tool_output := none
  , iteration_count := 0
  , should_continue := false
  , sql_safe := true
  , sql_violations := []
  , guard_checked := false }

/-! ### Helper lemmas -/

lemma guard_eq_of_last (s : AgentState) (m : Message)
    (h : s.messages.getLast? = some m) : sql_validation_guard s = guard_message m := by
  unfold sql_validation_guard; rw [h]

lemma guard_eq_of_no_messages {s : AgentState} (h : s.messages = []) :
    sql_validation_guard s = { sql_safe := true, sql_violations := [], guard_checked := true } := by
  unfold sql_validation_guard
  rw [show s.messages.getLast? = none from by rw [h]; rfl]

lemma guard_message_of_content_none {m : Message} (h : m.content = none) :
    guard_message m = { sql_safe := true, sql_violations := [], guard_checked := true } := by
  unfold guard_message; rw [h]

lemma guard_message_of_no_sql {m : Message} {c : String}
    (h : m.content = some c) (hc : contains_sql c = false) :
    guard_message m = { sql_safe := true, sql_violations := [], guard_checked := true } := by
  unfold guard_message; rw [h]; simp [hc]

lemma guard_message_of_sql {m : Message} {c : String}
    (h : m.content = some c) (hc : contains_sql c = true) :
    guard_message m =
      { sql_safe := ((extract_sql_queries c).filterMap (fun q =>
          if !(validate_sql_query q).valid then
            some ((q, (validate_sql_query q).errors, (validate_sql_query q).metadata) : Violation)
          else none)).isEmpty
      , sql_violations := (extract_sql_queries c).filterMap (fun q =>
          if !(validate_sql_query q).valid then
            some ((q, (validate_sql_query q).errors, (validate_sql_query q).metadata) : Violation)
          else none)
      , guard_checked := true } := by
  unfold guard_message; rw [h]; simp [hc]

/-! ### Claims -/

/-- C1: running `sql_validation_guard` sets `guard_checked` on every path;
an empty message list, a content-less last message, or undetected SQL each
give a safe verdict with no violations; otherwise the verdict is safe iff
every extracted statement validates, and each invalid statement contributes
one violation record (statement text, errors, metadata). -/
theorem sql_validation_guard_contract :
    (∀ s : AgentState, (sql_validation_guard s).guard_checked = true)
    ∧ (∀ s : AgentState, s.messages = [] →
        (sql_validation_guard s).sql_safe = true ∧ (sql_validation_guard s).sql_violations = [])
    ∧ (∀ (s : AgentState) (m : Message), s.messages.getLast? = some m → m.content = none →
        (sql_validation_guard s).sql_safe = true ∧ (sql_validation_guard s).sql_violations = [])
    ∧ (∀ (s : AgentState) (m : Message) (c : String), s.messages.getLast? = some m →
        m.content = some c → contains_sql c = false →
        (sql_validation_guard s).sql_safe = true ∧ (sql_validation_guard s).sql_violations = [])
    ∧ (∀ (s : AgentState) (m : Message) (c : String), s.messages.getLast? = some m →
        m.content = some c → contains_sql c = true →
        ((sql_validation_guard s).sql_safe = true ↔
          ∀ q ∈ extract_sql_queries c, (validate_sql_query q).valid = true)
        ∧ (sql_validation_guard s).sql_violations =
            (extract_sql_queries c).filterMap (fun q =>
              if !(validate_sql_query q).valid then
                some ((q, (validate_sql_query q).errors, (validate_sql_query q).metadata) : Violation)
              else none)) := by
  refine ⟨?_, ?_, ?_, ?_, ?_⟩
  · intro s
    cases h : s.messages.getLast? with
    | none => unfold sql_validation_guard; rw [h]
    | some m =>
      rw [guard_eq_of_last _ _ h]
      cases hm : m.content with
      | none => rw [guard_message_of_content_none hm]
      | some c =>
        cases hc : contains_sql c with
        | false => rw [guard_message_of_no_sql hm hc]
        | true => rw [guard_message_of_sql hm hc]
  · intro s h
    rw [guard_eq_of_no_messages h]
    exact ⟨rfl, rfl⟩
  · intro s m hlast hm
    rw [guard_eq_of_last _ _ hlast, guard_message_of_content_none hm]
    exact ⟨rfl, rfl⟩
  · intro s m c hlast hm hc
    rw [guard_eq_of_last _ _ hlast, guard_message_of_no_sql hm hc]
    exact ⟨rfl, rfl⟩
  · intro s m c hlast hm hc
    rw [guard_eq_of_last _ _ hlast, guard_message_of_sql hm hc]
    refine ⟨?_, rfl⟩
    rw [List.isEmpty_iff, List.filterMap_eq_nil_iff]
    constructor
    · intro h q hq
      have hfq := h q hq
      by_cases hv : (validate_sql_query q).valid
      · exact hv
      · simp [hv] at hfq
    · intro h q hq
      simp [h q hq]

/-- C1 witness: the guard contract applied at concrete states — an empty
transcript, a content-less message, a plain greeting, and a destructive
reply. -/
theorem sql_validation_guard_contract_witness :
    ((sql_validation_guard (initial_state "hi")).guard_checked = true)
    ∧ ((sql_validation_guard { initial_state "hi" with messages := [] }).sql_safe = true
        ∧ (sql_validation_guard { initial_state "hi" with messages := [] }).sql_violations = [])
    ∧ ((sql_validation_guard { initial_state "hi" with
          messages := [{ role := Role.assistant, content := none
                       , tool_calls := [], tool_call_id := none }] }).sql_safe = true)
    ∧ ((sql_validation_guard { initial_state "hi" with
          messages := [{ role := Role.assistant, content := some "Hello there!"
                       , tool_calls := [], tool_call_id := none }] }).sql_safe = true)
    ∧ ((sql_validation_guard { initial_state "hi" with
          messages := [{ role := Role.assistant, content := some "DROP TABLE users;"
                       , tool_calls := [], tool_call_id := none }] }).sql_safe = true ↔
        ∀ q ∈ extract_sql_queries "DROP TABLE users;", (validate_sql_query q).valid = true) := by
  refine ⟨?_, ?_, ?_, ?_, ?_⟩
  · exact sql_validation_guard_contract.1 _
  · exact sql_validation_guard_contract.2.1 _ rfl
  · exact (sql_validation_guard_contract.2.2.1
      { initial_state "hi" with
        messages := [{ role := Role.assistant, content := none
                     , tool_calls := [], tool_call_id := none }] }
      { role := Role.assistant, content := none, tool_calls := [], tool_call_id := none }
      rfl rfl).1
  · exact (sql_validation_guard_contract.2.2.2.1
      { initial_state "hi" with
        messages := [{ role := Role.assistant, content := some "Hello there!"
                     , tool_calls := [], tool_call_id := none }] }
      { role := Role.assistant, content := some "Hello there!", tool_calls := [], tool_call_id := none }
      "Hello there!" rfl rfl (by decide)).1
  · exact (sql_validation_guard_contract.2.2.2.2
      { initial_state "hi" with
        messages := [{ role := Role.assistant, content := some "DROP TABLE users;"
                     , tool_calls := [], tool_call_id := none }] }
      { role := Role.assistant, content := some "DROP TABLE users;", tool_calls := [], tool_call_id := none }
      "DROP TABLE users;" rfl rfl (by decide)).1

/-- C3 counterexample: `"SELECT a FROM t; SELECT b FROM u"` does not parse
into a single structured statement (it parses into two), yet validation
returns a *valid* result with no parse error — only the first statement is
examined. -/
theorem validate_multi_statement_cex :
    (sqlparse_parse "SELECT a FROM t; SELECT b FROM u").length = 2
    ∧ (validate_sql_query "SELECT a FROM t; SELECT b FROM u").valid = true
    ∧ (validate_sql_query "SELECT a FROM t; SELECT b FROM u").errors = [] :=
  ⟨by decide, by decide, by decide⟩

/-- C3 (amended): for every query string that parses into *no* statements
(empty input), validation returns an invalid result carrying the
parse-error message; validation is total (the modelled parse never
raises).  An input parsing into several statements is not rejected — only
its first statement is validated (see the counterexample). -/
theorem validate_empty_parse_invalid :
    ∀ q : String, sqlparse_parse q = [] →
      validate_sql_query q =
        { valid := false, errors := ["Empty or invalid SQL query"]
        , warnings := [], metadata := [] } := by
  intro q h
  unfold validate_sql_query
  rw [h]

/-- C3 witness: the empty query parses into no statements and is rejected
with the parse-error message. -/
theorem validate_empty_parse_invalid_witness :
    validate_sql_query "" =
      { valid := false, errors := ["Empty or invalid SQL query"]
      , warnings := [], metadata := [] } :=
  validate_empty_parse_invalid "" (by decide)

/-- C5: a first parsed statement classified as anything but `SELECT` is
rejected with an error naming the detected type; a `SELECT`-classified
statement passes the type layer (its errors come only from the blocklist
and complexity layers). -/
theorem validate_type_allowlist :
    (∀ (q : String) (s : Toks) (rest : List Toks), sqlparse_parse q = s :: rest →
      get_type s ≠ "SELECT" →
      (validate_sql_query q).valid = false
      ∧ (validate_sql_query q).errors =
          ["Only SELECT statements allowed, got: " ++ get_type s])
    ∧ (∀ (q : String) (s : Toks) (rest : List Toks), sqlparse_parse q = s :: rest →
      get_type s = "SELECT" →
      (validate_sql_query q).errors =
        blocked_errors s ++ join_errors s ++ subquery_errors q s) := by
  constructor
  · intro q s rest hp ht
    unfold validate_sql_query
    rw [hp]
    simp [ht]
  · intro q s rest hp ht
    unfold validate_sql_query
    rw [hp]
    simp [ht]

/-- C5 witness: `validate("DELETE FROM users WHERE id = 1")` is invalid
with an error naming the statement type `DELETE`; a plain SELECT passes
the type layer. -/
theorem validate_type_allowlist_witness :
    ((validate_sql_query "DELETE FROM users WHERE id = 1").valid = false
      ∧ (validate_sql_query "DELETE FROM users WHERE id = 1").errors =
          ["Only SELECT statements allowed, got: " ++
            get_type ((sqlparse_parse "DELETE FROM users WHERE id = 1").headD Toks.nil)])
    ∧ (validate_sql_query "SELECT a FROM t").errors =
        blocked_errors ((sqlparse_parse "SELECT a FROM t").headD Toks.nil)
          ++ join_errors ((sqlparse_parse "SELECT a FROM t").headD Toks.nil)
          ++ subquery_errors "SELECT a FROM t" ((sqlparse_parse "SELECT a FROM t").headD Toks.nil) := by
  constructor
  · exact validate_type_allowlist.1 "DELETE FROM users WHERE id = 1"
      ((sqlparse_parse "DELETE FROM users WHERE id = 1").headD Toks.nil)
      ((sqlparse_parse "DELETE FROM users WHERE id = 1").tail) (by decide) (by decide)
  · exact validate_type_allowlist.2 "SELECT a FROM t"
      ((sqlparse_parse "SELECT a FROM t").headD Toks.nil)
      ((sqlparse_parse "SELECT a FROM t").tail) (by decide) (by decide)

lemma validate_select_eq {q : String} {s : Toks} {rest : List Toks}
    (hp : sqlparse_parse q = s :: rest) (ht : get_type s = "SELECT") :
    validate_sql_query q =
      { valid := (blocked_errors s).isEmpty && (join_errors s).isEmpty
                   && (subquery_errors q s).isEmpty
      , errors := blocked_errors s ++ join_errors s ++ subquery_errors q s
      , warnings := []
      , metadata :=
          [("join_count", MetaVal.nat (count_joins s)),
           ("subquery_count", MetaVal.nat (count_subqueries (subquery_fuel q) s)),
           ("formatted_query", MetaVal.str (sqlparse_format q))] } := by
  unfold validate_sql_query
  rw [hp]
  simp [ht]

lemma join_errors_of_le (s : Toks) (h : count_joins s ≤ get_settings.sql_max_joins) :
    join_errors s = [] := by
  unfold join_errors
  rw [if_neg]
  omega

lemma join_errors_of_gt (s : Toks) (h : count_joins s > get_settings.sql_max_joins) :
    join_errors s =
      ["Too many JOINs: " ++ toString (count_joins s) ++
        " (max: " ++ toString get_settings.sql_max_joins ++ ")"] := by
  unfold join_errors
  rw [if_pos h]

lemma subquery_errors_of_le (q : String) (s : Toks)
    (h : count_subqueries (subquery_fuel q) s ≤ get_settings.sql_max_subqueries) :
    subquery_errors q s = [] := by
  unfold subquery_errors
  rw [if_neg]
  omega

lemma subquery_errors_of_gt (q : String) (s : Toks)
    (h : count_subqueries (subquery_fuel q) s > get_settings.sql_max_subqueries) :
    subquery_errors q s =
      ["Too many subqueries: " ++ toString (count_subqueries (subquery_fuel q) s) ++
        " (max: " ++ toString get_settings.sql_max_subqueries ++ ")"] := by
  unfold subquery_errors
  rw [if_pos h]

/-- C6: for a SELECT-classified first statement with no blocklist errors:
a JOIN count equal to `sql_max_joins` (default 3) with the subquery count
within its limit is valid; one more JOIN is invalid with an error carrying
the observed count and the limit; symmetrically, a subquery count equal to
`sql_max_subqueries` (default 5) with JOINs within limit is valid, and one
more is invalid with the same error shape. -/
theorem validate_complexity_limits :
    ∀ (q : String) (s : Toks) (rest : List Toks), sqlparse_parse q = s :: rest →
      get_type s = "SELECT" → blocked_errors s = [] →
      ((count_joins s = get_settings.sql_max_joins →
          count_subqueries (subquery_fuel q) s ≤ get_settings.sql_max_subqueries →
          (validate_sql_query q).valid = true)
        ∧ (count_joins s = get_settings.sql_max_joins + 1 →
          (validate_sql_query q).valid = false
          ∧ ("Too many JOINs: " ++ toString (get_settings.sql_max_joins + 1) ++
              " (max: " ++ toString get_settings.sql_max_joins ++ ")")
              ∈ (validate_sql_query q).errors)
        ∧ (count_subqueries (subquery_fuel q) s = get_settings.sql_max_subqueries →
          count_joins s ≤ get_settings.sql_max_joins →
          (validate_sql_query q).valid = true)
        ∧ (count_subqueries (subquery_fuel q) s = get_settings.sql_max_subqueries + 1 →
          (validate_sql_query q).valid = false
          ∧ ("Too many subqueries: " ++
              toString (get_settings.sql_max_subqueries + 1) ++
              " (max: " ++ toString get_settings.sql_max_subqueries ++ ")")
              ∈ (validate_sql_query q).errors)) := by
  intro q s rest hp ht hb
  refine ⟨?_, ?_, ?_, ?_⟩
  · intro hj hsub
    rw [validate_select_eq hp ht]
    simp [hb, join_errors_of_le s (by omega), subquery_errors_of_le q s hsub]
  · intro hj
    have hgt : count_joins s > get_settings.sql_max_joins := by omega
    rw [validate_select_eq hp ht]
    constructor
    · simp [join_errors_of_gt s hgt]
    · rw [join_errors_of_gt s hgt, hj]
      simp [hb]
  · intro hsub hj
    rw [validate_select_eq hp ht]
    simp [hb, join_errors_of_le s hj, subquery_errors_of_le q s (by omega)]
  · intro hsub
    have hgt : count_subqueries (subquery_fuel q) s > get_settings.sql_max_subqueries := by omega
    rw [validate_select_eq hp ht]
    constructor
    · simp [subquery_errors_of_gt q s hgt]
    · rw [subquery_errors_of_gt q s hgt, hsub]
      simp [hb]

/-- C6 witness: the complexity limits at concrete queries — exactly 3
JOINs valid, 4 JOINs invalid with `"Too many JOINs: 4 (max: 3)"`, exactly
5 nested subqueries valid, 6 invalid with
`"Too many subqueries: 6 (max: 5)"`. -/
theorem validate_complexity_limits_witness :
    ((validate_sql_query "SELECT * FROM t1 JOIN t2 ON a = b JOIN t3 ON c = d JOIN t4 ON e = f").valid = true)
    ∧ ((validate_sql_query "SELECT * FROM t1 JOIN t2 ON a = b JOIN t3 ON c = d JOIN t4 ON e = f JOIN t5 ON g = h").valid = false
      ∧ "Too many JOINs: 4 (max: 3)"
          ∈ (validate_sql_query "SELECT * FROM t1 JOIN t2 ON a = b JOIN t3 ON c = d JOIN t4 ON e = f JOIN t5 ON g = h").errors)
    ∧ ((validate_sql_query "SELECT a FROM ( SELECT a FROM ( SELECT a FROM ( SELECT a FROM ( SELECT a FROM ( SELECT a FROM t ) ) ) ) )").valid = true)
    ∧ ((validate_sql_query "SELECT a FROM ( SELECT a FROM ( SELECT a FROM ( SELECT a FROM ( SELECT a FROM ( SELECT a FROM ( SELECT a FROM t ) ) ) ) ) )").valid = false
      ∧ "Too many subqueries: 6 (max: 5)"
          ∈ (validate_sql_query "SELECT a FROM ( SELECT a FROM ( SELECT a FROM ( SELECT a FROM ( SELECT a FROM ( SELECT a FROM ( SELECT a FROM t ) ) ) ) ) )").errors) := by
  refine ⟨?_, ?_, ?_, ?_⟩
  · exact (validate_complexity_limits "SELECT * FROM t1 JOIN t2 ON a = b JOIN t3 ON c = d JOIN t4 ON e = f"
      ((sqlparse_parse "SELECT * FROM t1 JOIN t2 ON a = b JOIN t3 ON c = d JOIN t4 ON e = f").headD Toks.nil)
      ((sqlparse_parse "SELECT * FROM t1 JOIN t2 ON a = b JOIN t3 ON c = d JOIN t4 ON e = f").tail)
      (by decide) (by decide) (by decide)).1 (by decide) (by decide)
  · exact (validate_complexity_limits "SELECT * FROM t1 JOIN t2 ON a = b JOIN t3 ON c = d JOIN t4 ON e = f JOIN t5 ON g = h"
      ((sqlparse_parse "SELECT * FROM t1 JOIN t2 ON a = b JOIN t3 ON c = d JOIN t4 ON e = f JOIN t5 ON g = h").headD Toks.nil)
      ((sqlparse_parse "SELECT * FROM t1 JOIN t2 ON a = b JOIN t3 ON c = d JOIN t4 ON e = f JOIN t5 ON g = h").tail)
      (by decide) (by decide) (by decide)).2.1 (by decide)
  · exact (validate_complexity_limits "SELECT a FROM ( SELECT a FROM ( SELECT a FROM ( SELECT a FROM ( SELECT a FROM ( SELECT a FROM t ) ) ) ) )"
      ((sqlparse_parse "SELECT a FROM ( SELECT a FROM ( SELECT a FROM ( SELECT a FROM ( SELECT a FROM ( SELECT a FROM t ) ) ) ) )").headD Toks.nil)
      ((sqlparse_parse "SELECT a FROM ( SELECT a FROM ( SELECT a FROM ( SELECT a FROM ( SELECT a FROM ( SELECT a FROM t ) ) ) ) )").tail)
      (by decide) (by decide) (by decide)).2.2.1 (by decide) (by decide)
  · exact (validate_complexity_limits "SELECT a FROM ( SELECT a FROM ( SELECT a FROM ( SELECT a FROM ( SELECT a FROM ( SELECT a FROM ( SELECT a FROM t ) ) ) ) ) )"
      ((sqlparse_parse "SELECT a FROM ( SELECT a FROM ( SELECT a FROM ( SELECT a FROM ( SELECT a FROM ( SELECT a FROM ( SELECT a FROM t ) ) ) ) ) )").headD Toks.nil)
      ((sqlparse_parse "SELECT a FROM ( SELECT a FROM ( SELECT a FROM ( SELECT a FROM ( SELECT a FROM ( SELECT a FROM ( SELECT a FROM t ) ) ) ) ) )").tail)
      (by decide) (by decide) (by decide)).2.2.2 (by decide)

/-- C10: whenever the first parsed statement is SELECT-classified, the
validation metadata carries `join_count`, `subquery_count` and
`formatted_query` (in that insertion order) regardless of validity — the
blocklist, join-limit and subquery-limit layers accumulate errors without
returning early; only a parse yielding no statement or a non-SELECT type
rejection returns early with empty metadata. -/
theorem validate_metadata_layers :
    (∀ (q : String) (s : Toks) (rest : List Toks), sqlparse_parse q = s :: rest →
      get_type s = "SELECT" →
      (validate_sql_query q).metadata =
        [("join_count", MetaVal.nat (count_joins s)),
         ("subquery_count", MetaVal.nat (count_subqueries (subquery_fuel q) s)),
         ("formatted_query", MetaVal.str (sqlparse_format q))]
      ∧ (validate_sql_query q).metadata.map Prod.fst =
          ["join_count", "subquery_count", "formatted_query"])
    ∧ (∀ q : String, sqlparse_parse q = [] → (validate_sql_query q).metadata = [])
    ∧ (∀ (q : String) (s : Toks) (rest : List Toks), sqlparse_parse q = s :: rest →
      get_type s ≠ "SELECT" → (validate_sql_query q).metadata = []) := by
  refine ⟨?_, ?_, ?_⟩
  · intro q s rest hp ht
    rw [validate_select_eq hp ht]
    exact ⟨rfl, rfl⟩
  · intro q hp
    unfold validate_sql_query
    rw [hp]
  · intro q s rest hp ht
    unfold validate_sql_query
    rw [hp]
    simp [ht]

/-- C10 witness: an over-the-JOIN-limit query is invalid yet keeps the
three metadata entries; the empty query and a DELETE query return early
with empty metadata. -/
theorem validate_metadata_layers_witness :
    ((validate_sql_query "SELECT * FROM t1 JOIN t2 ON a = b JOIN t3 ON c = d JOIN t4 ON e = f JOIN t5 ON g = h").metadata.map Prod.fst
        = ["join_count", "subquery_count", "formatted_query"]
      ∧ (validate_sql_query "SELECT * FROM t1 JOIN t2 ON a = b JOIN t3 ON c = d JOIN t4 ON e = f JOIN t5 ON g = h").valid = false)
    ∧ (validate_sql_query "").metadata = []
    ∧ (validate_sql_query "DELETE FROM users WHERE id = 1").metadata = [] := by
  refine ⟨⟨?_, by decide⟩, ?_, ?_⟩
  · exact (validate_metadata_layers.1 "SELECT * FROM t1 JOIN t2 ON a = b JOIN t3 ON c = d JOIN t4 ON e = f JOIN t5 ON g = h"
      ((sqlparse_parse "SELECT * FROM t1 JOIN t2 ON a = b JOIN t3 ON c = d JOIN t4 ON e = f JOIN t5 ON g = h").headD Toks.nil)
      ((sqlparse_parse "SELECT * FROM t1 JOIN t2 ON a = b JOIN t3 ON c = d JOIN t4 ON e = f JOIN t5 ON g = h").tail)
      (by decide) (by decide)).2
  · exact validate_metadata_layers.2.1 "" (by decide)
  · exact validate_metadata_layers.2.2 "DELETE FROM users WHERE id = 1"
      ((sqlparse_parse "DELETE FROM users WHERE id = 1").headD Toks.nil)
      ((sqlparse_parse "DELETE FROM users WHERE id = 1").tail)
      (by decide) (by decide)

/-- C4 counterexample: a text with two fenced regions where only the
*second* contains a destructive-keyword statement (`DROP` with its
companion `TABLE`).  The fenced check inspects only the first region
(`re.search`, not `finditer`), the regions are then stripped before the
inline scan, and `contains_sql` returns `false` — refuting both the
universal claim and the "each fenced region" description. -/
theorem contains_sql_second_fence_cex :
    ((allFenceInners ("```\nhello\n``` ```sql\nDROP TABLE users;\n```").toList).map
        (fun l => String.mk (trimChars l)) = ["hello", "DROP TABLE users;"])
    ∧ contains_sql_patterns "DROP TABLE users;" = true
    ∧ hasSub ("TABLE".toList) (upChars ("DROP TABLE users;").toList) = true
    ∧ contains_sql "```\nhello\n``` ```sql\nDROP TABLE users;\n```" = false :=
  ⟨by decide, by decide, by decide, by decide⟩

/-- C4 (amended): the fenced-region check applies only to the *first*
fenced region: for every text whose first fenced region's inner text
contains a detection keyword, `contains_sql` returns true.  A
destructive-keyword statement confined to a later fenced region is not
flagged (the counterexample); all fenced regions are stripped before the
inline scan, so the inline patterns cannot recover it either. -/
theorem contains_sql_first_fence :
    ∀ (t : String) (pre inner post : List Char),
      splitFence t.toList = some (pre, inner, post) →
      contains_sql_patterns (String.mk (inner.dropWhile isSpaceChar)) = true →
      contains_sql t = true := by
  intro t pre inner post hsplit hpat
  unfold contains_sql
  have hsplit2 : splitFence t.data = some (pre, inner, post) := hsplit
  simp [hsplit2, hpat]

/-- C4 witness: a single fenced region holding `DROP TABLE users;` is
flagged. -/
theorem contains_sql_first_fence_witness :
    contains_sql "```sql\nDROP TABLE users;\n```" = true :=
  contains_sql_first_fence "```sql\nDROP TABLE users;\n```"
    [] ("\nDROP TABLE users;\n".toList) [] (by decide) (by decide)

/-- C8 counterexample: two identical fenced regions are extracted twice —
the code-block phase appends without a duplicate check — so the extractor
returns a list with a repeated entry. -/
theorem extract_sql_queries_duplicate_cex :
    extract_sql_queries "```sql\nSELECT * FROM t\n``` and ```sql\nSELECT * FROM t\n```"
      = ["SELECT * FROM t", "SELECT * FROM t"]
    ∧ ¬ (extract_sql_queries "```sql\nSELECT * FROM t\n``` and ```sql\nSELECT * FROM t\n```").Nodup :=
  ⟨by decide, by decide⟩

lemma foldl_preserve {α β : Type} (f : β → α → β) (P : β → Prop)
    (hf : ∀ b a, P b → P (f b a)) : ∀ (l : List α) (b : β), P b → P (l.foldl f b) := by
  intro l
  induction l with
  | nil => intro b hb; exact hb
  | cons a l ih => intro b hb; exact ih (f b a) (hf b a hb)

lemma dedup_append_nodup (acc : List String) (q : String) (h : acc.Nodup) :
    (if acc.contains q then acc else acc ++ [q]).Nodup := by
  by_cases hc : acc.contains q = true
  · rw [if_pos hc]; exact h
  · rw [if_neg hc, List.nodup_append]
    refine ⟨h, List.nodup_singleton q, ?_⟩
    intro a ha hb
    rw [List.mem_singleton] at hb
    subst hb
    exact hc (List.elem_eq_true_of_mem ha)

/-- C8 (amended): the inline-extraction phase discards duplicates (an
entry equal to one already collected is skipped), so it preserves
freedom from duplicates; the full extractor therefore returns a
duplicate-free list whenever the code-block phase — which appends without
a duplicate check — introduces none.  Identical fenced regions do yield
duplicates (the counterexample). -/
theorem extract_inline_nodup :
    (∀ (t : String) (qs : List String), qs.Nodup → (inline_extend t qs).Nodup)
    ∧ (∀ t : String, (code_block_queries t).Nodup → (extract_sql_queries t).Nodup) := by
  have hstep : ∀ (t : String) (qs : List String), qs.Nodup → (inline_extend t qs).Nodup := by
    intro t qs h
    unfold inline_extend
    refine foldl_preserve _ List.Nodup ?_ SQL_KEYWORDS qs h
    intro acc kw hacc
    refine foldl_preserve _ List.Nodup ?_ _ acc hacc
    intro acc2 cap hacc2
    dsimp only
    split
    · exact dedup_append_nodup acc2
        (dropTrailingSentencePunct (String.mk (trimChars cap.toList))) hacc2
    · exact hacc2
  exact ⟨hstep, fun t h => hstep t (code_block_queries t) h⟩

/-- C8 witness: on an inline-only text the code-block phase is empty, so
the extraction result is duplicate-free. -/
theorem extract_inline_nodup_witness :
    (extract_sql_queries "DROP TABLE users; SELECT a FROM t;").Nodup :=
  extract_inline_nodup.2 "DROP TABLE users; SELECT a FROM t;" (by decide)

/-- C9: whenever the last message carries at least one tool invocation
request (the only states from which the graph enters ACT), `act_node`
returns an update — no exception escapes — consisting of exactly one Tool
message whose content is determined by the *first* request alone: the
tool's result when dispatch succeeds, or an `Error: `-prefixed payload
when it fails, in particular `Error: Unknown tool: <name>` when the name
is not registered. -/
theorem act_node_contract :
    (∀ (registry : ToolRegistry) (s : AgentState) (m : Message) (tc : ToolCall)
        (rest : List ToolCall),
      s.messages.getLast? = some m → m.tool_calls = tc :: rest →
      act_node registry s =
        some { messages := [tool_message (act_content registry tc) tc.id]
             , tool_output := act_content registry tc })
    ∧ (∀ (registry : ToolRegistry) (tc : ToolCall),
        (∃ r, execute_tool registry tc.name tc.args = Except.ok r
          ∧ act_content registry tc = r)
        ∨ (∃ e, execute_tool registry tc.name tc.args = Except.error e
          ∧ act_content registry tc = "Error: " ++ e))
    ∧ (∀ (registry : ToolRegistry) (tc : ToolCall),
        registry.tools.lookup tc.name = none →
        act_content registry tc = "Error: Unknown tool: " ++ tc.name) := by
  refine ⟨?_, ?_, ?_⟩
  · intro registry s m tc rest hlast htc
    unfold act_node
    simp only [hlast, htc]
  · intro registry tc
    rcases hx : execute_tool registry tc.name tc.args with e | r
    · exact Or.inr ⟨e, rfl, by unfold act_content; rw [hx]⟩
    · exact Or.inl ⟨r, rfl, by unfold act_content; rw [hx]⟩
  · intro registry tc h
    unfold act_content execute_tool
    rw [h]
    rfl

/-- C9 witness: the ACT contract at a concrete state whose last message
requests an unregistered tool, and at a registry with one succeeding
tool. -/
theorem act_node_contract_witness :
    (act_node empty_registry
        { initial_state "hi" with
          messages := [{ role := Role.assistant, content := some "calling"
                       , tool_calls := [{ name := "lookup_db", args := [], id := "call1" }]
                       , tool_call_id := none }] } =
      some { messages := [tool_message "Error: Unknown tool: lookup_db" "call1"]
           , tool_output := "Error: Unknown tool: lookup_db" })
    ∧ act_content empty_registry { name := "lookup_db", args := [], id := "call1" }
        = "Error: Unknown tool: lookup_db" := by
  constructor
  · have h := act_node_contract.1 empty_registry
      { initial_state "hi" with
        messages := [{ role := Role.assistant, content := some "calling"
                     , tool_calls := [{ name := "lookup_db", args := [], id := "call1" }]
                     , tool_call_id := none }] }
      { role := Role.assistant, content := some "calling"
      , tool_calls := [{ name := "lookup_db", args := [], id := "call1" }]
      , tool_call_id := none }
      { name := "lookup_db", args := [], id := "call1" } [] rfl rfl
    rw [h]
    rfl
  · exact act_node_contract.2.2 empty_registry
      { name := "lookup_db", args := [], id := "call1" } rfl

/-- A backend producing a plain assistant reply (for the THINK-step
counterexample). -/
def plain_backend : List Message → Message := fun _ =>
  { role := Role.assistant, content := some "Hello!", tool_calls := [], tool_call_id := none }

/-- C7 counterexample: after the THINK step on the chat front-end's
initial state the *stored* transcript is `[user, assistant]` — its first
element is the user turn and no element is a system preamble, refuting
the invariant that the stored transcript's first element is the preamble;
the preamble appears only in the sequence handed to the backend. -/
theorem think_transcript_no_preamble_cex :
    (think_node plain_backend (initial_state "hi")).messages =
      [{ role := Role.user, content := some "hi", tool_calls := [], tool_call_id := none },
       { role := Role.assistant, content := some "Hello!", tool_calls := [], tool_call_id := none }]
    ∧ (think_node plain_backend (initial_state "hi")).messages.head? ≠ some system_message
    ∧ ((think_node plain_backend (initial_state "hi")).messages.filter
          (fun m => m.role == Role.system)) = []
    ∧ think_handed (initial_state "hi") = system_message :: (initial_state "hi").messages :=
  ⟨rfl, by decide, by decide, rfl⟩

/-- C7 (amended): on a THINK step from a non-empty transcript holding no
system message, the sequence handed to the backend is the preamble
followed by the whole transcript — the preamble is its first element and
occurs in it exactly once; the stored transcript gains only the backend's
response, so (for a non-system response) it still holds no preamble: the
preamble is injected per call, never persisted. -/
theorem think_handed_preamble :
    ∀ (backend : List Message → Message) (s : AgentState),
      s.messages ≠ [] →
      (∀ m ∈ s.messages, m.role ≠ Role.system) →
      think_handed s = system_message :: s.messages
      ∧ (think_handed s).head? = some system_message
      ∧ ((think_handed s).filter (fun m => m.role == Role.system)) = [system_message]
      ∧ (think_node backend s).messages = s.messages ++ [backend (system_message :: s.messages)]
      ∧ ((backend (system_message :: s.messages)).role ≠ Role.system →
          ∀ m ∈ (think_node backend s).messages, m.role ≠ Role.system) := by
  intro backend s hne hnosys
  obtain ⟨m, tl, hm⟩ : ∃ m tl, s.messages = m :: tl := by
    cases hmm : s.messages with
    | nil => exact absurd hmm hne
    | cons a l => exact ⟨a, l, rfl⟩
  have hrole : m.role ≠ Role.system := hnosys m (by rw [hm]; exact List.mem_cons_self m tl)
  have hhanded : think_handed s = system_message :: s.messages := by
    unfold think_handed
    rw [hm]
    simp [hrole]
  refine ⟨hhanded, by rw [hhanded]; rfl, ?_, ?_, ?_⟩
  · rw [hhanded]
    rw [List.filter_cons_of_pos (by rfl)]
    rw [List.filter_eq_nil_iff.mpr (fun a ha => by simp [hnosys a ha])]
  · unfold think_node
    rw [hhanded]
  · intro hb m2 hm2
    unfold think_node at hm2
    rw [hhanded] at hm2
    simp only [List.mem_append, List.mem_singleton] at hm2
    rcases hm2 with h | h
    · exact hnosys m2 h
    · rw [h]; exact hb

/-- C7 witness: the amended THINK-step contract at the chat front-end's
initial state and a plain backend. -/
theorem think_handed_preamble_witness :
    think_handed (initial_state "hi") = system_message :: (initial_state "hi").messages
    ∧ ((think_handed (initial_state "hi")).filter (fun m => m.role == Role.system))
        = [system_message] := by
  have h := think_handed_preamble plain_backend (initial_state "hi") (by decide) (by decide)
  exact ⟨h.1, h.2.2.1⟩

lemma stepN_add (b : List Message → Message) (r : ToolRegistry) (a c : Nat)
    (p : Node × AgentState) :
    stepN b r (a + c) p = stepN b r c (stepN b r a p) := by
  induction a generalizing p with
  | zero => rw [Nat.zero_add]; rfl
  | succ n ih =>
      rw [show n + 1 + c = (n + c) + 1 from by omega]
      show stepN b r (n + c) (graphStep b r p) = _
      rw [ih (graphStep b r p)]
      rfl

/-- One regeneration cycle of a persistently unsafe backend: THINK appends
the destructive reply (no tool calls, so THINK → RESPOND), RESPOND →
SQL_GUARD, and the guard finds the violation and routes back to THINK —
with `iteration_count` incremented and never compared to any limit. -/
lemma bad_cycle (s : AgentState) :
    stepN bad_backend empty_registry 3 (Node.think, s)
      = (Node.think, { s with messages := s.messages ++ [drop_message]
                            , iteration_count := s.iteration_count + 1
                            , sql_safe := false
                            , sql_violations := [drop_violation]
                            , guard_checked := true }) := by
  have hlast : (s.messages ++ [drop_message]).getLast? = some drop_message :=
    List.getLast?_concat _
  have hroute : think_route { s with messages := s.messages ++ [drop_message]
                                   , iteration_count := s.iteration_count + 1 }
      = Node.respond := by
    unfold think_route should_use_tool
    simp [hlast, drop_message]
  have h1 : graphStep bad_backend empty_registry (Node.think, s)
      = (Node.respond, { s with messages := s.messages ++ [drop_message]
                              , iteration_count := s.iteration_count + 1 }) := by
    show (think_route (think_node bad_backend s), think_node bad_backend s) = _
    rw [show think_node bad_backend s =
        { s with messages := s.messages ++ [drop_message]
               , iteration_count := s.iteration_count + 1 } from rfl]
    rw [hroute]
  have hguard : sql_validation_guard
      { s with messages := s.messages ++ [drop_message]
             , iteration_count := s.iteration_count + 1 }
      = { sql_safe := false, sql_violations := [drop_violation], guard_checked := true } := by
    rw [guard_eq_of_last _ drop_message hlast]
    decide
  have h3 : graphStep bad_backend empty_registry
      (Node.sql_guard, { s with messages := s.messages ++ [drop_message]
                              , iteration_count := s.iteration_count + 1 })
      = (Node.think, { s with messages := s.messages ++ [drop_message]
                            , iteration_count := s.iteration_count + 1
                            , sql_safe := false
                            , sql_violations := [drop_violation]
                            , guard_checked := true }) := by
    show (guard_route _, _) = _
    rw [hguard]
    have : guard_route { s with messages := s.messages ++ [drop_message]
                              , iteration_count := s.iteration_count + 1
                              , sql_safe := false
                              , sql_violations := [drop_violation]
                              , guard_checked := true } = Node.think := by
      unfold guard_route is_sql_safe
      simp
    rw [this]
  show stepN bad_backend empty_registry 2 (graphStep bad_backend empty_registry (Node.think, s)) = _
  rw [h1]
  show graphStep bad_backend empty_registry (Node.sql_guard, _) = _
  rw [h3]

lemma bad_loop (k : Nat) :
    ∃ s : AgentState,
      stepN bad_backend empty_registry (3 * k) (Node.think, initial_state "hi")
        = (Node.think, s)
      ∧ s.iteration_count = k := by
  induction k with
  | zero => exact ⟨initial_state "hi", rfl, rfl⟩
  | succ n ih =>
      obtain ⟨s, hstep, hcount⟩ := ih
      refine ⟨{ s with messages := s.messages ++ [drop_message]
                     , iteration_count := s.iteration_count + 1
                     , sql_safe := false
                     , sql_violations := [drop_violation]
                     , guard_checked := true }, ?_, ?_⟩
      · rw [show 3 * (n + 1) = 3 * n + 3 from by ring, stepN_add, hstep, bad_cycle s]
      · show s.iteration_count + 1 = n + 1
        rw [hcount]

/-- C2: once the guard has run, the GUARD edge routes to THINK exactly
when the verdict is unsafe and to DONE (END) exactly when it is safe; the
routing decision is invariant under the iteration counter — nothing on
this edge compares `iteration_count` with `max_iterations`; and a backend
that persistently re-emits unsafe content loops the engine through
THINK → RESPOND → GUARD forever: after `3 * k` steps the engine is at
THINK again with `iteration_count = k`, beyond any `max_iterations`. -/
theorem guard_edge_ungated :
    (∀ s : AgentState, s.guard_checked = true →
      ((guard_route s = Node.think ↔ s.sql_safe = false)
        ∧ (guard_route s = Node.done ↔ s.sql_safe = true)))
    ∧ (∀ (s : AgentState) (n : Nat),
        guard_route { s with iteration_count := n } = guard_route s
        ∧ is_sql_safe { s with iteration_count := n } = is_sql_safe s)
    ∧ (∀ k : Nat, ∃ s : AgentState,
        stepN bad_backend empty_registry (3 * k) (Node.think, initial_state "hi")
          = (Node.think, s)
        ∧ s.iteration_count = k) := by
  refine ⟨?_, ?_, ?_⟩
  · intro s h
    unfold guard_route is_sql_safe
    rw [h]
    cases hs : s.sql_safe <;> simp
  · intro s n
    exact ⟨rfl, rfl⟩
  · intro k
    exact bad_loop k

/-- C2 witness: from the guard edge with an unsafe verdict the route is to
THINK at a state whose `iteration_count` (99) is far beyond
`max_iterations` (3); after `3 * 4` steps of the persistently unsafe
backend the engine is again at THINK with `iteration_count = 4 >
max_iterations`. -/
theorem guard_edge_ungated_witness :
    guard_route
        { initial_state "x" with
            guard_checked := true, sql_safe := false, iteration_count := 99 }
      = Node.think
    ∧ (stepN bad_backend empty_registry (3 * 4) (Node.think, initial_state "hi")).1
        = Node.think
    ∧ (stepN bad_backend empty_registry (3 * 4) (Node.think, initial_state "hi")).2.iteration_count
        = 4
    ∧ 4 > get_settings.max_iterations := by
  obtain ⟨s, hstep, hcount⟩ := guard_edge_ungated.2.2 4
  refine ⟨?_, ?_, ?_, by decide⟩
  · exact (guard_edge_ungated.1
      { initial_state "x" with
          guard_checked := true, sql_safe := false, iteration_count := 99 }
      rfl).1.mpr rfl
  · rw [hstep]
  · rw [hstep]
    exact hcount

